import Mathlib

/-!
Shallow embedding of the `DatabaseManager` class of
`src/docker-images/fastapi/main.py` and proofs about its contract.

External collaborators (the `os` environment, `json.loads`, the psycopg2
driver) are modelled as oracles: the environment is a pair of functions
(`getenv`, `jsonLoads`), and the nondeterministic outcomes of driver calls
(opening a connection, running the liveness probe, executing a statement)
are explicit arguments to each operation.  Each operation also returns a
`Trace` recording how many liveness probes were performed, how many
physical connection attempts were made, how many times `connect()` was
invoked from `execute_query`, and which statements were sent to the
database, so that operational claims ("performs the probe", "sends no
statement", "attempts exactly one connect") become provable statements.
-/

namespace DatabaseManager

/-- A JSON value as produced by `json.loads` for the fields of the secret
payload.  Only the shapes the service can meet are modelled. -/
inductive JValue where
  | jstr (s : String)
  | jnum (n : Int)
  | jbool (b : Bool)
  | jnull
deriving DecidableEq

/-- A JSON object (Python dict): an association list with unique keys. -/
abbrev JObject := List (String × JValue)

/-- A database row, as returned by `cursor.fetchone` / `cursor.fetchall`. -/
abbrev DbRow := List JValue

/-- The external world read by `get_connection_params`: `os.getenv` and
`json.loads` (returning `none` on `json.JSONDecodeError`). -/
structure Env where
  getenv : String → Option String
  jsonLoads : String → Option JObject

/-- Python `==` on the modelled values (`True == 1` holds in Python). -/
def pyEq : JValue → JValue → Bool
  | .jstr a, .jstr b => a == b
  | .jnum a, .jnum b => a == b
  | .jbool a, .jnum b => (if a then (1 : Int) else 0) == b
  | .jnum a, .jbool b => a == (if b then (1 : Int) else 0)
  | .jbool a, .jbool b => a == b
  | .jnull, .jnull => true
  | _, _ => false

/-- Python falsiness of an `os.getenv` result: `None` and `""` are falsy. -/
def pyFalsy : Option String → Bool
  | none => true
  | some s => s == ""

/-- Python `str.strip()` on the character list of a string: drop leading
and trailing whitespace. -/
def pyStrip (l : List Char) : List Char :=
  ((l.dropWhile Char.isWhitespace).reverse.dropWhile Char.isWhitespace).reverse

/-- Python `str.upper()` on one character (ASCII; the query texts and port
strings of this service are ASCII). -/
def pyUpperChar (c : Char) : Char :=
  if c.isLower then Char.ofNat (c.toNat - 32) else c

/-- Value of an all-digit character list. -/
def digitsToNat (l : List Char) : Nat :=
  l.foldl (fun acc c => acc * 10 + (c.toNat - 48)) 0

/-- A non-empty run of decimal digits, or nothing. -/
def digitsCore (l : List Char) : Option Nat :=
  if l ≠ [] ∧ l.all Char.isDigit then some (digitsToNat l) else none

/-- Python `int(str)`: strip whitespace, optional sign, decimal digits;
anything else raises `ValueError` (modelled as `none`). -/
def pyInt (s : String) : Option Int :=
  match pyStrip s.data with
  | '-' :: ds => (digitsCore ds).map (fun n => -(n : Int))
  | '+' :: ds => (digitsCore ds).map (fun n => (n : Int))
  | ds => (digitsCore ds).map (fun n => (n : Int))

/-- The exceptions `get_connection_params` can raise.  The four
`ValueError`s raised explicitly by the method are the spec's `ConfigError`
cases; `intParseError` is the raw `ValueError` raised by `int()` on a
malformed `DATABASE_PORT` string, which is not one of them. -/
inductive PyErr where
  | intParseError (s : String)
  | missingSecret
  | missingHost
  | malformedSecret
  | missingField (field : String)
deriving DecidableEq

/-- The dict returned by `get_connection_params` on success. -/
structure ConnParams where
  host : String
  database : String
  user : JValue
  password : JValue
  port : Int
  connect_timeout : Int
  application_name : String
deriving DecidableEq

/-- `DatabaseManager.get_connection_params` (main.py lines 33-89).
The order of failure is the source's: `int()` on the port string runs
first (line 42), then the empty-secret check (line 47), then the
missing-host check (line 50), then JSON parsing, then the `username` and
`password` key checks.  The outer `except` block only logs and re-raises,
so it is transparent here. -/
def get_connection_params (env : Env) : Except PyErr ConnParams :=
  let database_host := env.getenv "DATABASE_HOST"
  let database_name := (env.getenv "DATABASE_NAME").getD "postgres"
  match pyInt ((env.getenv "DATABASE_PORT").getD "5432") with
  | none => .error (.intParseError ((env.getenv "DATABASE_PORT").getD "5432"))
  | some database_port =>
    let database_secret := (env.getenv "DATABASE_URL").getD ""
    if database_secret == "" then .error .missingSecret
    else if pyFalsy database_host then .error .missingHost
    else
      match env.jsonLoads database_secret with
      | none => .error .malformedSecret
      | some secret =>
        match secret.lookup "username" with
        | none => .error (.missingField "username")
        | some u =>
          match secret.lookup "password" with
          | none => .error (.missingField "password")
          | some pw =>
            .ok { host := database_host.getD "",
                  database := database_name,
                  user := u, password := pw,
                  port := database_port,
                  connect_timeout := 10,
                  application_name := "fastapi-stage4v1" }

/-- A psycopg2 connection object as far as the manager observes it:
an identity (to tell physical connections apart) and its `closed` flag. -/
structure Conn where
  id : Nat
  closed : Bool
deriving DecidableEq

/-- The manager's state: the single owned handle (`self.connection`). -/
structure MgrState where
  connection : Option Conn
deriving DecidableEq

/-- The condition of `connect`'s early return (main.py line 94):
`self.connection and not self.connection.closed`. -/
def hasLiveHandle (st : MgrState) : Bool :=
  match st.connection with
  | some c => !c.closed
  | none => false

/-- Outcome of one liveness probe (`cursor.execute("SELECT 1")` followed by
`cursor.fetchone()`): either some cursor call raises, or `fetchone`
returns `None` or a row. -/
inductive ProbeOutcome where
  | raises
  | result (r : Option DbRow)
deriving DecidableEq

/-- How a fresh `psycopg2.connect(**conn_params)` call turns out.  The
three `except` arms of `connect` (OperationalError, psycopg2.Error,
anything else) are distinguished to show they are handled alike. -/
inductive ConnectFailure where
  | operationalError (msg : String)
  | pgError (msg : String)
  | otherError (msg : String)
deriving DecidableEq

/-- Driver outcome for the fresh-connection path of `connect`: either
`psycopg2.connect` raises, or it yields a new physical connection
(identified by `id`) whose liveness probe then has the given outcome. -/
inductive ConnectOutcome where
  | fails (f : ConnectFailure)
  | opened (id : Nat) (probe : ProbeOutcome)
deriving DecidableEq

/-- Observable side effects of one manager operation: liveness probes
performed, physical connection attempts, `connect()` invocations made by
`execute_query`, and the statements sent via `cursor.execute(query, params)`
(the probe's own `SELECT 1` round-trip is counted under `probes`, not
under `stmts`). -/
structure Trace where
  probes : Nat
  opens : Nat
  connectCalls : Nat
  stmts : List String
deriving DecidableEq

def Trace.empty : Trace := ⟨0, 0, 0, []⟩

def Trace.add (a b : Trace) : Trace :=
  ⟨a.probes + b.probes, a.opens + b.opens,
   a.connectCalls + b.connectCalls, a.stmts ++ b.stmts⟩

/-- The sentinel check on the probe's `fetchone` result:
`result and result[0] == 1` (main.py line 111) — truthy means a non-empty
row, whose first column must equal the integer 1. -/
def probeOk : Option DbRow → Bool
  | none => false
  | some [] => false
  | some (v :: _) => pyEq v (.jnum 1)

/-- The fresh-connection path of `connect` (main.py lines 98-129): derive
parameters, open a connection, set autocommit, probe it.  Every raised
exception — a `ValueError` from `get_connection_params`, a driver failure,
or a raising probe — lands in one of the `except` arms, which set
`self.connection = None` and return `False`.  A probe whose result merely
fails the sentinel check returns `False` on line 116 WITHOUT clearing the
handle: the newly opened connection stays stored. -/
def connectFresh (env : Env) (oc : ConnectOutcome) : MgrState × Bool × Trace :=
  match get_connection_params env with
  | .error _ => (⟨none⟩, false, Trace.empty)
  | .ok _ =>
    match oc with
    | .fails _ => (⟨none⟩, false, ⟨0, 1, 0, []⟩)
    | .opened i probe =>
      match probe with
      | .raises => (⟨none⟩, false, ⟨1, 1, 0, []⟩)
      | .result r =>
        if probeOk r then (⟨some ⟨i, false⟩⟩, true, ⟨1, 1, 0, []⟩)
        else (⟨some ⟨i, false⟩⟩, false, ⟨1, 1, 0, []⟩)

/-- `DatabaseManager.connect` (main.py lines 91-129).  If a handle exists
and its `closed` flag is unset, returns `True` at once — no liveness
probe is performed on this path (line 94 only reads the flag). -/
def connect (env : Env) (oc : ConnectOutcome) (st : MgrState) :
    MgrState × Bool × Trace :=
  match st.connection with
  | some c => if !c.closed then (st, true, Trace.empty) else connectFresh env oc
  | none => connectFresh env oc

/-- `DatabaseManager.is_connected` (main.py lines 131-144): `False` when no
handle exists or its `closed` flag is set; otherwise runs the probe and
returns `True` unless some cursor call raises (the `fetchone` result is
not inspected here).  `self.connection` is never reassigned, so the state
passes through unchanged. -/
def is_connected (po : ProbeOutcome) (st : MgrState) :
    MgrState × Bool × Trace :=
  match st.connection with
  | none => (st, false, Trace.empty)
  | some c =>
    if c.closed then (st, false, Trace.empty)
    else
      match po with
      | .raises => (st, false, ⟨1, 0, 0, []⟩)
      | .result _ => (st, true, ⟨1, 0, 0, []⟩)

/-- The structured errors `execute_query` raises: the
`psycopg2.OperationalError("Failed to reconnect to database")` of line 152
(the spec's `QueryError("reconnect failed")`), or a driver exception
re-raised from statement execution (line 168). -/
inductive QueryError where
  | reconnectFailed
  | execFailed (msg : String)
deriving DecidableEq

/-- Driver outcome of `cursor.execute(query, params)` (and the `fetchall`
that follows for a SELECT): it raises, or the result set is `rows`. -/
inductive ExecOutcome where
  | raises (msg : String)
  | ok (rows : List DbRow)
deriving DecidableEq

/-- `query.strip().upper().startswith("SELECT")` (main.py line 158). -/
def isSelect (query : String) : Bool :=
  List.isPrefixOf "SELECT".data ((pyStrip query.data).map pyUpperChar)

/-- Statement execution half of `execute_query` (main.py lines 154-164):
send the statement; if the trimmed, upper-cased query text starts with
`SELECT`, fetch and return all rows, otherwise return `None`. -/
def runStatement (query : String) (eo : ExecOutcome) (st : MgrState)
    (t : Trace) : MgrState × Except QueryError (Option (List DbRow)) × Trace :=
  match eo with
  | .raises msg => (st, .error (.execFailed msg), t.add ⟨0, 0, 0, [query]⟩)
  | .ok rows =>
    if isSelect query then
      (st, .ok (some rows), t.add ⟨0, 0, 0, [query]⟩)
    else
      (st, .ok none, t.add ⟨0, 0, 0, [query]⟩)

/-- `DatabaseManager.execute_query` (main.py lines 146-168).  If
`is_connected()` is false it calls `connect()` once; if that returns
`False` it raises before any cursor is created, so no statement is sent.
The bind values `params` are passed to the driver separately from the
query text and never interpolated, so they do not appear in the trace.
The outer `except` only logs and re-raises. -/
def execute_query (query : String) (_params : Option (List JValue))
    (icProbe : ProbeOutcome) (env : Env) (oc : ConnectOutcome)
    (eo : ExecOutcome) (st : MgrState) :
    MgrState × Except QueryError (Option (List DbRow)) × Trace :=
  let r1 := is_connected icProbe st
  if r1.2.1 then
    runStatement query eo r1.1 r1.2.2
  else
    let r2 := connect env oc r1.1
    let t2 := (r1.2.2.add r2.2.2).add ⟨0, 0, 1, []⟩
    if r2.2.1 then runStatement query eo r2.1 t2
    else (r2.1, .error .reconnectFailed, t2)

/-- `DatabaseManager.close` (main.py lines 170-174): if a handle exists and
is not closed, call `connection.close()` — which sets the handle's
`closed` flag; `self.connection` itself is never set to `None`, so the
reference is retained.  On an absent or already-closed handle, nothing
happens. -/
def close (st : MgrState) : MgrState :=
  match st.connection with
  | some c => if !c.closed then ⟨some ⟨c.id, true⟩⟩ else st
  | none => st

deriving instance DecidableEq for Except

/-- The secret payload of the spec's end-to-end scenario,
`{"username":"u","password":"p"}`. -/
def secretStr : String := "\x7b\"username\":\"u\",\"password\":\"p\"\x7d"

/-- A healthy configuration: `DATABASE_HOST=db.example`, `DATABASE_URL`
set to `secretStr`, `DATABASE_PORT` and `DATABASE_NAME` unset; the JSON
oracle parses `secretStr` to its two-field object. -/
def envGood : Env :=
  { getenv := fun k =>
      if k == "DATABASE_HOST" then some "db.example"
      else if k == "DATABASE_URL" then some secretStr
      else none,
    jsonLoads := fun s =>
      if s == secretStr then
        some [("username", .jstr "u"), ("password", .jstr "p")]
      else none }

/-- `envGood` with `DATABASE_PORT` set to the non-numeric string "abc". -/
def envBadPort : Env :=
  { getenv := fun k =>
      if k == "DATABASE_PORT" then some "abc" else envGood.getenv k,
    jsonLoads := envGood.jsonLoads }

/-- A configuration with every variable unset. -/
def envNone : Env :=
  { getenv := fun _ => none, jsonLoads := fun _ => none }

/-! ## Helper lemmas -/

theorem is_connected_state (po : ProbeOutcome) (st : MgrState) :
    (is_connected po st).1 = st := by
  rcases st with ⟨_ | c⟩
  · rfl
  · simp only [is_connected]
    split
    · rfl
    · cases po <;> rfl

theorem is_connected_no_stmt (po : ProbeOutcome) (st : MgrState) :
    (is_connected po st).2.2.connectCalls = 0 ∧
      (is_connected po st).2.2.stmts = [] := by
  rcases st with ⟨_ | c⟩
  · exact ⟨rfl, rfl⟩
  · simp only [is_connected]
    split
    · exact ⟨rfl, rfl⟩
    · cases po <;> exact ⟨rfl, rfl⟩

theorem connect_of_not_live (env : Env) (oc : ConnectOutcome) (st : MgrState)
    (h : hasLiveHandle st = false) : connect env oc st = connectFresh env oc := by
  rcases st with ⟨_ | c⟩
  · rfl
  · simp only [hasLiveHandle] at h
    simp only [connect, h, if_neg, Bool.false_eq_true, not_false_eq_true, if_false]

theorem connect_of_live (env : Env) (oc : ConnectOutcome) (st : MgrState)
    (c : Conn) (hc : st.connection = some c) (hcl : c.closed = false) :
    connect env oc st = (st, true, Trace.empty) := by
  rcases st with ⟨conn⟩
  cases hc
  simp only [connect, hcl, Bool.not_false, if_true]

theorem connectFresh_no_stmt (env : Env) (oc : ConnectOutcome) :
    (connectFresh env oc).2.2.connectCalls = 0 ∧
      (connectFresh env oc).2.2.stmts = [] := by
  unfold connectFresh
  split
  · exact ⟨rfl, rfl⟩
  · rcases oc with f | ⟨i, _ | r⟩
    · exact ⟨rfl, rfl⟩
    · exact ⟨rfl, rfl⟩
    · simp only
      split <;> exact ⟨rfl, rfl⟩

theorem connect_no_stmt (env : Env) (oc : ConnectOutcome) (st : MgrState) :
    (connect env oc st).2.2.connectCalls = 0 ∧
      (connect env oc st).2.2.stmts = [] := by
  rcases st with ⟨_ | c⟩
  · exact connectFresh_no_stmt env oc
  · simp only [connect]
    split
    · exact ⟨rfl, rfl⟩
    · exact connectFresh_no_stmt env oc

theorem connectFresh_of_error (env : Env) (oc : ConnectOutcome) (e : PyErr)
    (he : get_connection_params env = .error e) :
    connectFresh env oc = (⟨none⟩, false, Trace.empty) := by
  unfold connectFresh
  rw [he]

theorem runStatement_connectCalls (q : String) (eo : ExecOutcome)
    (st : MgrState) (t : Trace) :
    (runStatement q eo st t).2.2.connectCalls = t.connectCalls := by
  rcases eo with msg | rows
  · simp [runStatement, Trace.add]
  · cases hq : isSelect q <;> simp [runStatement, hq, Trace.add]

/-! ## Claim theorems -/

/-- C4 (amended): for every configuration with a non-empty host, a secret
string that parses as JSON containing both `username` and `password`, and
a `DATABASE_PORT` that is unset or parses as an integer,
`get_connection_params` succeeds with the secret's credentials, the
parsed port (5432 if unset), the database name defaulting to `postgres`,
and a 10-second connect timeout.  (The claim as frozen omits the port
proviso; see the counterexample.) -/
theorem get_connection_params_success_C4 (env : Env) (host s : String)
    (kvs : JObject) (u pw : JValue) (port : Int)
    (hh : env.getenv "DATABASE_HOST" = some host) (hne : host ≠ "")
    (hs : (env.getenv "DATABASE_URL").getD "" = s) (hsne : s ≠ "")
    (hj : env.jsonLoads s = some kvs)
    (hu : kvs.lookup "username" = some u)
    (hpw : kvs.lookup "password" = some pw)
    (hport : pyInt ((env.getenv "DATABASE_PORT").getD "5432") = some port) :
    get_connection_params env =
      .ok { host := host,
            database := (env.getenv "DATABASE_NAME").getD "postgres",
            user := u, password := pw, port := port,
            connect_timeout := 10,
            application_name := "fastapi-stage4v1" } := by
  unfold get_connection_params
  rw [hport, hs, hh]
  simp only [pyFalsy, Option.getD_some]
  simp only [beq_iff_eq, if_neg hsne, if_neg hne]
  simp only [hj, hu, hpw]

/-- C4 witness: the spec's end-to-end scenario — `DATABASE_HOST=db.example`,
`DATABASE_URL` the two-field secret, `DATABASE_PORT` and `DATABASE_NAME`
unset — yields exactly the struct of the claim. -/
theorem get_connection_params_C4_witness :
    get_connection_params envGood =
      .ok { host := "db.example", database := "postgres",
            user := .jstr "u", password := .jstr "p", port := 5432,
            connect_timeout := 10,
            application_name := "fastapi-stage4v1" } := by
  rw [get_connection_params_success_C4 envGood "db.example" secretStr
    [("username", JValue.jstr "u"), ("password", JValue.jstr "p")]
    (JValue.jstr "u") (JValue.jstr "p") 5432 (by decide) (by decide) (by decide)
    (by decide) (by decide) (by decide) (by decide) (by decide)]
  decide

/-- C4 counterexample: with `DATABASE_PORT="abc"`, the host is non-empty
and the secret parses with both fields, yet `get_connection_params`
raises the raw `int()` parse error instead of succeeding — refuting the
claim's unconditional success. -/
theorem get_connection_params_C4_counterexample :
    envBadPort.getenv "DATABASE_HOST" = some "db.example"
    ∧ envBadPort.jsonLoads ((envBadPort.getenv "DATABASE_URL").getD "") =
        some [("username", .jstr "u"), ("password", .jstr "p")]
    ∧ get_connection_params envBadPort = .error (.intParseError "abc") := by
  decide

/-- C5 (amended): the failure cases of `get_connection_params`, in the
order the source checks them — the port string must parse as an integer
first (failing with a raw parse error, not a `ConfigError`), then the
empty-secret check, then the missing-host check, then JSON parsing, then
the `username` key, then the `password` key; each diagnostic is raised
exactly when its condition is the first one to hold.  (The claim as
frozen quantifies each diagnostic over all configurations in which its
condition holds, ignoring this order; see the counterexample.) -/
theorem get_connection_params_errors_C5 (env : Env) (portStr s : String)
    (hps : (env.getenv "DATABASE_PORT").getD "5432" = portStr)
    (hs : (env.getenv "DATABASE_URL").getD "" = s) :
    (pyInt portStr = none →
        get_connection_params env = .error (.intParseError portStr))
    ∧ (∀ n : Int, pyInt portStr = some n → s = "" →
        get_connection_params env = .error .missingSecret)
    ∧ (∀ n : Int, pyInt portStr = some n → s ≠ "" →
        pyFalsy (env.getenv "DATABASE_HOST") = true →
        get_connection_params env = .error .missingHost)
    ∧ (∀ n : Int, pyInt portStr = some n → s ≠ "" →
        pyFalsy (env.getenv "DATABASE_HOST") = false →
        env.jsonLoads s = none →
        get_connection_params env = .error .malformedSecret)
    ∧ (∀ (n : Int) (kvs : JObject), pyInt portStr = some n → s ≠ "" →
        pyFalsy (env.getenv "DATABASE_HOST") = false →
        env.jsonLoads s = some kvs → kvs.lookup "username" = none →
        get_connection_params env = .error (.missingField "username"))
    ∧ (∀ (n : Int) (kvs : JObject) (u : JValue), pyInt portStr = some n →
        s ≠ "" → pyFalsy (env.getenv "DATABASE_HOST") = false →
        env.jsonLoads s = some kvs → kvs.lookup "username" = some u →
        kvs.lookup "password" = none →
        get_connection_params env = .error (.missingField "password")) := by
  subst hps
  subst hs
  refine ⟨?_, ?_, ?_, ?_, ?_, ?_⟩
  · intro h
    unfold get_connection_params
    rw [h]
  · intro n h hse
    unfold get_connection_params
    rw [h, hse]
    simp
  · intro n h hsne hf
    unfold get_connection_params
    rw [h]
    simp only [beq_iff_eq, if_neg hsne, hf, if_true]
  · intro n h hsne hf hj
    unfold get_connection_params
    rw [h]
    simp only [beq_iff_eq, if_neg hsne, hf, Bool.false_eq_true, if_false]
    rw [hj]
  · intro n kvs h hsne hf hj hu
    unfold get_connection_params
    rw [h]
    simp only [beq_iff_eq, if_neg hsne, hf, Bool.false_eq_true, if_false]
    simp only [hj, hu]
  · intro n kvs u h hsne hf hj hu hpw
    unfold get_connection_params
    rw [h]
    simp only [beq_iff_eq, if_neg hsne, hf, Bool.false_eq_true, if_false]
    simp only [hj, hu, hpw]

/-- C5 witness: with every variable unset, the secret string is empty and
`get_connection_params` raises the missing-secret diagnostic. -/
theorem get_connection_params_C5_witness :
    get_connection_params envNone = .error .missingSecret :=
  (get_connection_params_errors_C5 envNone "5432" "" rfl rfl).2.1 5432
    (by decide) rfl

/-- C5 counterexample: when the host is absent AND the secret is empty,
the code raises the missing-secret diagnostic, not the missing-host one
the claim requires for every host-absent configuration. -/
theorem get_connection_params_C5_counterexample :
    envNone.getenv "DATABASE_HOST" = none
    ∧ get_connection_params envNone = .error .missingSecret
    ∧ PyErr.missingSecret ≠ PyErr.missingHost := by
  decide

/-- C10: a `DATABASE_PORT` value that does not parse as an integer makes
`get_connection_params` fail with the raw `int()` parse error — distinct
from all four `ConfigError` cases — regardless of host and secret (the
port is parsed before any of their checks), and `connect()` then reports
`false` from any state without a live handle. -/
theorem port_parse_error_C10 (env : Env) (pstr : String)
    (hp : env.getenv "DATABASE_PORT" = some pstr)
    (hbad : pyInt pstr = none) :
    get_connection_params env = .error (.intParseError pstr)
    ∧ PyErr.intParseError pstr ≠ .missingSecret
    ∧ PyErr.intParseError pstr ≠ .missingHost
    ∧ PyErr.intParseError pstr ≠ .malformedSecret
    ∧ (∀ fld, PyErr.intParseError pstr ≠ .missingField fld)
    ∧ (∀ (oc : ConnectOutcome) (st : MgrState), hasLiveHandle st = false →
        (connect env oc st).2.1 = false) := by
  have hmain : get_connection_params env = .error (.intParseError pstr) := by
    unfold get_connection_params
    rw [hp]
    simp only [Option.getD_some]
    rw [hbad]
  refine ⟨hmain, nofun, nofun, nofun, fun fld => nofun, ?_⟩
  intro oc st h
  rw [connect_of_not_live env oc st h, connectFresh_of_error env oc _ hmain]

/-- C10 witness: `DATABASE_PORT="abc"` with otherwise-valid host and
secret fails with the parse error, and a fresh `connect()` reports
`false`. -/
theorem port_parse_error_C10_witness :
    get_connection_params envBadPort = .error (.intParseError "abc")
    ∧ (connect envBadPort (.opened 0 (.result (some [.jnum 1])))
        ⟨none⟩).2.1 = false := by
  have h := port_parse_error_C10 envBadPort "abc" (by decide) (by decide)
  exact ⟨h.1, h.2.2.2.2.2 _ _ (by decide)⟩

/-- C1: when `execute_query` starts while `is_connected()` reports false,
it invokes `connect()` exactly once, and if that `connect()` returns
false the call raises the reconnect-failed `QueryError` with no statement
sent to the database. -/
theorem execute_query_reconnect_C1 (q : String) (params : Option (List JValue))
    (icProbe : ProbeOutcome) (env : Env) (oc : ConnectOutcome)
    (eo : ExecOutcome) (st : MgrState)
    (hdisc : (is_connected icProbe st).2.1 = false) :
    (execute_query q params icProbe env oc eo st).2.2.connectCalls = 1
    ∧ ((connect env oc st).2.1 = false →
        (execute_query q params icProbe env oc eo st).2.1 =
          .error .reconnectFailed
        ∧ (execute_query q params icProbe env oc eo st).2.2.stmts = []) := by
  have hst : (is_connected icProbe st).1 = st := is_connected_state icProbe st
  obtain ⟨hic0, hics⟩ := is_connected_no_stmt icProbe st
  obtain ⟨hc0, hcs⟩ := connect_no_stmt env oc st
  constructor
  · cases hc2 : (connect env oc st).2.1
    · simp only [execute_query, hdisc, Bool.false_eq_true, if_false, hst,
        hc2, Trace.add]
      simp [hic0, hc0]
    · simp only [execute_query, hdisc, Bool.false_eq_true, if_false, hst,
        hc2, if_true]
      rw [runStatement_connectCalls]
      simp [Trace.add, hic0, hc0]
  · intro hc
    simp only [execute_query, hdisc, Bool.false_eq_true, if_false, hst, hc,
      Trace.add]
    simp [hics, hcs]

/-- C1 witness: with no handle and an unconfigured environment, the
reconnect attempt fails and `execute_query` raises the reconnect-failed
error. -/
theorem execute_query_reconnect_C1_witness :
    (execute_query "SELECT 1" none (.result (some [.jnum 1])) envNone
        (.opened 0 (.result (some [.jnum 1]))) (.ok []) ⟨none⟩).2.1 =
      .error .reconnectFailed
    ∧ (execute_query "SELECT 1" none (.result (some [.jnum 1])) envNone
        (.opened 0 (.result (some [.jnum 1]))) (.ok []) ⟨none⟩).2.2.stmts =
      [] := by
  have h := execute_query_reconnect_C1 "SELECT 1" none (.result (some [.jnum 1]))
    envNone (.opened 0 (.result (some [.jnum 1]))) (.ok []) ⟨none⟩ (by decide)
  exact h.2 (by decide)

/-- C2 (amended): in the fresh-connection path (no live handle, parameters
derivable), a raising `psycopg2.connect` of any kind and a raising probe
both discard the handle and return false; a probe whose `fetchone` result
fails the sentinel check returns false but KEEPS the newly opened handle
stored; the path returns true exactly when the probe's result matches the
sentinel.  (The claim as frozen says the probe-mismatch case also
discards the handle; see the counterexample.) -/
theorem connect_failure_C2 (env : Env) (st : MgrState) (p : ConnParams)
    (h : hasLiveHandle st = false)
    (hp : get_connection_params env = .ok p) :
    (∀ f, connect env (.fails f) st = (⟨none⟩, false, ⟨0, 1, 0, []⟩))
    ∧ (∀ i, connect env (.opened i .raises) st = (⟨none⟩, false, ⟨1, 1, 0, []⟩))
    ∧ (∀ i r, probeOk r = false →
        connect env (.opened i (.result r)) st =
          (⟨some ⟨i, false⟩⟩, false, ⟨1, 1, 0, []⟩))
    ∧ (∀ i r, probeOk r = true →
        connect env (.opened i (.result r)) st =
          (⟨some ⟨i, false⟩⟩, true, ⟨1, 1, 0, []⟩)) := by
  refine ⟨?_, ?_, ?_, ?_⟩
  · intro f
    rw [connect_of_not_live env _ st h]
    unfold connectFresh
    rw [hp]
  · intro i
    rw [connect_of_not_live env _ st h]
    unfold connectFresh
    rw [hp]
  · intro i r hr
    rw [connect_of_not_live env _ st h]
    unfold connectFresh
    rw [hp]
    simp [hr]
  · intro i r hr
    rw [connect_of_not_live env _ st h]
    unfold connectFresh
    rw [hp]
    simp [hr]

/-- C2 witness: with a valid configuration and no handle, a transport
failure during `psycopg2.connect` leaves no stored handle and returns
false. -/
theorem connect_failure_C2_witness :
    connect envGood (.fails (.operationalError "timeout")) ⟨none⟩ =
      (⟨none⟩, false, ⟨0, 1, 0, []⟩) := by
  have h := connect_failure_C2 envGood ⟨none⟩
    { host := "db.example", database := "postgres", user := .jstr "u",
      password := .jstr "p", port := 5432, connect_timeout := 10,
      application_name := "fastapi-stage4v1" } (by decide) (by decide)
  exact h.1 _

/-- C2 counterexample: when the probe of a freshly opened connection
returns the row `(2,)` — not the sentinel — `connect` returns false but
the stored connection reference is the new handle, not absent, refuting
"discards any partial handle" for the probe-mismatch case. -/
theorem connect_C2_counterexample :
    connect envGood (.opened 7 (.result (some [.jnum 2]))) ⟨none⟩ =
      (⟨some ⟨7, false⟩⟩, false, ⟨1, 1, 0, []⟩)
    ∧ (connect envGood (.opened 7 (.result (some [.jnum 2])))
        ⟨none⟩).1.connection ≠ none := by
  decide

/-- C3 (amended): whenever a non-closed handle exists, `connect()` returns
true immediately, performing NO liveness probe and opening no second
physical connection (only the handle's `closed` flag is read); two
consecutive `connect()` calls starting from no handle, over a healthy
connection, probe exactly once in total (which is at most twice) and both
return true, the second call opening nothing.  (The claim as frozen says
the existing-handle path performs the probe; see the counterexample.) -/
theorem connect_idempotent_C3 (env : Env) (oc oc2 : ConnectOutcome)
    (st : MgrState) (c : Conn) (p : ConnParams) (i : Nat) (r : Option DbRow)
    (hc : st.connection = some c) (hcl : c.closed = false)
    (hp : get_connection_params env = .ok p) (hr : probeOk r = true) :
    connect env oc st = (st, true, Trace.empty)
    ∧ connect env (.opened i (.result r)) ⟨none⟩ =
        (⟨some ⟨i, false⟩⟩, true, ⟨1, 1, 0, []⟩)
    ∧ connect env oc2 ⟨some ⟨i, false⟩⟩ =
        (⟨some ⟨i, false⟩⟩, true, Trace.empty) := by
  refine ⟨connect_of_live env oc st c hc hcl, ?_, ?_⟩
  · rw [connect_of_not_live env _ ⟨none⟩ rfl]
    unfold connectFresh
    rw [hp]
    simp [hr]
  · exact connect_of_live env oc2 ⟨some ⟨i, false⟩⟩ ⟨i, false⟩ rfl rfl

/-- C3 witness: under the healthy configuration, the first `connect` from
no handle probes once and succeeds; a second `connect` over the resulting
live handle returns true with an empty trace. -/
theorem connect_idempotent_C3_witness :
    connect envGood (.fails (.otherError "unused")) ⟨some ⟨0, false⟩⟩ =
      (⟨some ⟨0, false⟩⟩, true, Trace.empty)
    ∧ connect envGood (.opened 1 (.result (some [.jnum 1]))) ⟨none⟩ =
        (⟨some ⟨1, false⟩⟩, true, ⟨1, 1, 0, []⟩)
    ∧ connect envGood (.fails (.otherError "unused")) ⟨some ⟨1, false⟩⟩ =
        (⟨some ⟨1, false⟩⟩, true, Trace.empty) := by
  exact connect_idempotent_C3 envGood (.fails (.otherError "unused"))
    (.fails (.otherError "unused")) ⟨some ⟨0, false⟩⟩ ⟨0, false⟩
    { host := "db.example", database := "postgres", user := .jstr "u",
      password := .jstr "p", port := 5432, connect_timeout := 10,
      application_name := "fastapi-stage4v1" } 1 (some [.jnum 1])
    rfl rfl (by decide) (by decide)

/-- C3 counterexample: with an existing non-closed handle, `connect`
returns true with ZERO probes performed — the supplied probe outcome
(here one that would raise) is never consulted — refuting "performs the
liveness probe on it" for the existing-handle path. -/
theorem connect_C3_counterexample :
    connect envGood (.opened 9 .raises) ⟨some ⟨3, false⟩⟩ =
      (⟨some ⟨3, false⟩⟩, true, Trace.empty)
    ∧ (connect envGood (.opened 9 .raises) ⟨some ⟨3, false⟩⟩).2.2.probes =
      0 := by
  decide

/-- C6: when `execute_query` reaches statement execution (the manager is
connected, or the reconnect succeeds) and the driver does not raise, a
query whose trimmed upper-cased text starts with `SELECT` returns all
fetched rows (so the returned sequence is exactly the result set, of
equal length), and any other statement returns `none`. -/
theorem execute_query_select_C6 (q : String) (params : Option (List JValue))
    (icProbe : ProbeOutcome) (env : Env) (oc : ConnectOutcome)
    (rows : List DbRow) (st : MgrState)
    (h : (is_connected icProbe st).2.1 = true ∨ (connect env oc st).2.1 = true) :
    (execute_query q params icProbe env oc (.ok rows) st).2.1 =
      .ok (if isSelect q then some rows else none) := by
  cases hic : (is_connected icProbe st).2.1
  · have hc : (connect env oc st).2.1 = true := by
      rcases h with h | h
      · rw [hic] at h
        cases h
      · exact h
    simp only [execute_query, hic, Bool.false_eq_true, if_false,
      is_connected_state, hc, if_true]
    cases hq : isSelect q <;> simp [runStatement, hq]
  · simp only [execute_query, hic, if_true]
    cases hq : isSelect q <;> simp [runStatement, hq]

/-- C6 witness: over a live handle, the scratch-table SELECT returns both
fetched rows and the DROP statement returns `none`. -/
theorem execute_query_select_C6_witness :
    (execute_query "SELECT * FROM stage4v1_test ORDER BY id DESC LIMIT 5"
        none (.result (some [.jnum 1])) envGood (.fails (.otherError "unused"))
        (.ok [[.jnum 1], [.jnum 2]]) ⟨some ⟨1, false⟩⟩).2.1 =
      .ok (some [[.jnum 1], [.jnum 2]])
    ∧ (execute_query "DROP TABLE IF EXISTS stage4v1_test" none
        (.result (some [.jnum 1])) envGood (.fails (.otherError "unused"))
        (.ok []) ⟨some ⟨1, false⟩⟩).2.1 = .ok none := by
  constructor
  · rw [execute_query_select_C6 "SELECT * FROM stage4v1_test ORDER BY id DESC LIMIT 5"
      none (.result (some [.jnum 1])) envGood (.fails (.otherError "unused"))
      [[.jnum 1], [.jnum 2]] ⟨some ⟨1, false⟩⟩ (Or.inl (by decide))]
    decide
  · rw [execute_query_select_C6 "DROP TABLE IF EXISTS stage4v1_test"
      none (.result (some [.jnum 1])) envGood (.fails (.otherError "unused"))
      [] ⟨some ⟨1, false⟩⟩ (Or.inl (by decide))]
    decide

/-- C7: neither `connect` nor `is_connected` lets an exception escape —
a parameter-derivation error, a raising `psycopg2.connect` of any kind, a
raising probe, and a probe-mismatch all make `connect` return the boolean
false, and a raising probe makes `is_connected` return false from any
state. -/
theorem connect_boolean_C7 (env : Env) (st : MgrState)
    (h : hasLiveHandle st = false) :
    (∀ e, get_connection_params env = .error e →
        ∀ oc, (connect env oc st).2.1 = false)
    ∧ (∀ f, (connect env (.fails f) st).2.1 = false)
    ∧ (∀ i, (connect env (.opened i .raises) st).2.1 = false)
    ∧ (∀ i r, probeOk r = false →
        (connect env (.opened i (.result r)) st).2.1 = false)
    ∧ (∀ st2 : MgrState, (is_connected .raises st2).2.1 = false) := by
  refine ⟨?_, ?_, ?_, ?_, ?_⟩
  · intro e he oc
    rw [connect_of_not_live env oc st h, connectFresh_of_error env oc e he]
  · intro f
    rw [connect_of_not_live env _ st h]
    unfold connectFresh
    split <;> rfl
  · intro i
    rw [connect_of_not_live env _ st h]
    unfold connectFresh
    split <;> rfl
  · intro i r hr
    rw [connect_of_not_live env _ st h]
    unfold connectFresh
    split
    · rfl
    · simp [hr]
  · intro st2
    rcases st2 with ⟨_ | c⟩
    · rfl
    · simp only [is_connected]
      split <;> rfl

/-- C7 witness: a misconfigured fresh `connect` and a raising probe in
`is_connected` both come back as the boolean false. -/
theorem connect_boolean_C7_witness :
    (connect envNone (.fails (.operationalError "conn refused")) ⟨none⟩).2.1 =
      false
    ∧ (is_connected .raises ⟨some ⟨2, false⟩⟩).2.1 = false := by
  have h := connect_boolean_C7 envNone ⟨none⟩ (by decide)
  exact ⟨h.2.1 _, h.2.2.2.2 _⟩

/-- C8 (amended): when a non-closed handle exists, `close` marks it closed
but RETAINS the stored reference (the connection field keeps pointing at
the now-closed handle); on an already-closed or absent handle it is a
no-op, and `close` is idempotent.  (The claim as frozen says the stored
reference is discarded; see the counterexample.) -/
theorem close_C8 (st : MgrState) (c : Conn) :
    (st.connection = some c → c.closed = false →
        close st = ⟨some ⟨c.id, true⟩⟩)
    ∧ (st.connection = some c → c.closed = true → close st = st)
    ∧ (st.connection = none → close st = st)
    ∧ close (close st) = close st := by
  refine ⟨?_, ?_, ?_, ?_⟩
  · intro hc hcl
    rcases st with ⟨conn⟩
    cases hc
    simp [close, hcl]
  · intro hc hcl
    rcases st with ⟨conn⟩
    cases hc
    simp [close, hcl]
  · intro hc
    rcases st with ⟨conn⟩
    cases hc
    rfl
  · rcases st with ⟨_ | ⟨i, b⟩⟩
    · rfl
    · cases b <;> rfl

/-- C8 witness: closing a live handle marks it closed, and a second
`close` changes nothing. -/
theorem close_C8_witness :
    close ⟨some ⟨5, false⟩⟩ = ⟨some ⟨5, true⟩⟩
    ∧ close (close ⟨some ⟨5, false⟩⟩) = close ⟨some ⟨5, false⟩⟩ := by
  have h := close_C8 ⟨some ⟨5, false⟩⟩ ⟨5, false⟩
  exact ⟨h.1 rfl rfl, h.2.2.2⟩

/-- C8 counterexample: after `close` on a live handle the stored
connection reference is still present (pointing at the closed handle),
refuting "discards the stored reference". -/
theorem close_C8_counterexample :
    close ⟨some ⟨6, false⟩⟩ = ⟨some ⟨6, true⟩⟩
    ∧ (close ⟨some ⟨6, false⟩⟩).connection ≠ none := by
  decide

/-- C9: a raising probe inside `is_connected` over a live handle reports
false while the state — and so the stored handle — is unchanged;
`is_connected` never reassigns the handle for any probe outcome, and the
handle-clearing `self.connection = None` happens in `connect`'s own
failure path. -/
theorem is_connected_frame_C9 (st : MgrState) (c : Conn)
    (hc : st.connection = some c) (hcl : c.closed = false) :
    is_connected .raises st = (st, false, ⟨1, 0, 0, []⟩)
    ∧ (∀ (po : ProbeOutcome) (st2 : MgrState), (is_connected po st2).1 = st2)
    ∧ (∀ (env : Env) (f : ConnectFailure) (st2 : MgrState),
        hasLiveHandle st2 = false →
        (connect env (.fails f) st2).1.connection = none) := by
  refine ⟨?_, is_connected_state, ?_⟩
  · rcases st with ⟨conn⟩
    cases hc
    simp [is_connected, hcl]
  · intro env f st2 h2
    rw [connect_of_not_live env _ st2 h2]
    unfold connectFresh
    split <;> rfl

/-- C9 witness: a raising probe over the live handle with id 4 returns
false and leaves the state exactly as it was. -/
theorem is_connected_frame_C9_witness :
    is_connected .raises ⟨some ⟨4, false⟩⟩ =
      (⟨some ⟨4, false⟩⟩, false, ⟨1, 0, 0, []⟩) :=
  (is_connected_frame_C9 ⟨some ⟨4, false⟩⟩ ⟨4, false⟩ rfl rfl).1

end DatabaseManager
